import Mathlib

/-!
Verification of the 4-versus-4 soccer simulation core: the AI decision
tree, formation geometry, difficulty gating, ball spin physics and the
shooting system, embedded shallowly from the TypeScript sources.

Conventions of the embedding:
* `THREE.Vector3` becomes `Vec3`, a record of three exact reals; float
  arithmetic is modelled exactly over the reals.
* Times and timers are rationals, so the state-machine and reaction-timer
  claims stay fully computable.
* A JavaScript object identity test (`p !== player`) is modelled by a
  numeric `pid` field carried by every player.
* Each mutable class becomes a state record; a mutating method becomes a
  function from the old state (plus arguments) to its result and the new
  state.  Calls to `Math.random()` become explicit arguments.
* The source string tag `position` of `AIAction` is rendered `pos_hold`,
  and the formation names `2-2`, `3-1`, `1-3` are rendered `two_two`,
  `three_one`, `one_three`, since Lean identifiers cannot carry those
  spellings.
-/

namespace Soccer

/-- A 3-component vector with exact real coordinates (`THREE.Vector3`). -/
@[ext]
structure Vec3 where
  x : ℝ
  y : ℝ
  z : ℝ

def Vec3.add (a b : Vec3) : Vec3 := ⟨a.x + b.x, a.y + b.y, a.z + b.z⟩

def Vec3.sub (a b : Vec3) : Vec3 := ⟨a.x - b.x, a.y - b.y, a.z - b.z⟩

def Vec3.scale (a : Vec3) (s : ℝ) : Vec3 := ⟨a.x * s, a.y * s, a.z * s⟩

def Vec3.dot (a b : Vec3) : ℝ := a.x * b.x + a.y * b.y + a.z * b.z

/-- Cross product, `THREE.Vector3.crossVectors`. -/
def Vec3.cross (a b : Vec3) : Vec3 :=
  ⟨a.y * b.z - a.z * b.y, a.z * b.x - a.x * b.z, a.x * b.y - a.y * b.x⟩

/-- Linear interpolation `a.lerp(b, t)` of `THREE.Vector3`. -/
def Vec3.lerp (a b : Vec3) (t : ℝ) : Vec3 :=
  ⟨a.x + (b.x - a.x) * t, a.y + (b.y - a.y) * t, a.z + (b.z - a.z) * t⟩

/-- Euclidean norm, `THREE.Vector3.length`. -/
noncomputable def Vec3.length (v : Vec3) : ℝ :=
  Real.sqrt (v.x ^ 2 + v.y ^ 2 + v.z ^ 2)

/-- Euclidean distance, `THREE.Vector3.distanceTo`. -/
noncomputable def Vec3.distanceTo (a b : Vec3) : ℝ :=
  Real.sqrt ((a.x - b.x) ^ 2 + (a.y - b.y) ^ 2 + (a.z - b.z) ^ 2)

/-- Normalisation, `THREE.Vector3.normalize`, whose source divides by
`this.length() || 1`, so the zero vector is left unchanged. -/
noncomputable def Vec3.normalize (v : Vec3) : Vec3 :=
  v.scale (1 / (if v.length = 0 then 1 else v.length))

/-- A player entity: `pid` models JavaScript object identity, the other
fields are the `Player` fields the core reads (`team`, `playerNumber`,
the rigid-body position and velocity, and the mesh heading
`mesh.rotation.y`). -/
structure Player where
  pid : ℕ
  team : ℕ
  playerNumber : ℕ
  pos : Vec3
  vel : Vec3
  rotY : ℝ

def Player.getPosition (p : Player) : Vec3 := p.pos

/-! ## AIDecisionTree: types and state machine -/

/-- The union type `AIState` of AIDecisionTree.ts. -/
inductive AIState where
  | attacking
  | defending
  | transitioning_attack
  | transitioning_defense
deriving DecidableEq, Repr

/-- The union type `AIAction` of AIDecisionTree.ts (`position` is rendered
`pos_hold`). -/
inductive AIAction where
  | chase_ball
  | intercept
  | pos_hold
  | support
  | mark
  | press
  | shoot
  | pass
deriving DecidableEq, Repr

/-- The `AIDecision` interface: an action, a real priority and optional
targets. -/
structure AIDecision where
  action : AIAction
  priority : ℝ
  target : Option Vec3 := none
  targetPlayer : Option Player := none

/-- The mutable fields of one `AIDecisionTree` instance: `state`
(initially `defending`) and `stateTimer` (initially 0). -/
structure DTState where
  state : AIState
  stateTimer : ℚ
deriving DecidableEq, Repr

/-- `AIDecisionTree.determineState`: reads possession as "closest player
overall is on the queried team" and steps the per-instance state machine,
returning the new state together with the updated instance fields.  The
locals `teamSide` and `ballInOwnHalf` of the source are computed and,
exactly as in the source, never used. -/
def determineState (team : ℕ) (ballPosition : Vec3)
    (closestPlayerToBall : Option Player) (closestTeammateToBall : Option Player)
    (s : DTState) : AIState × DTState :=
  let teamSide : ℝ := if team = 1 then -1 else 1
  let _ballInOwnHalf : Prop := ballPosition.x * teamSide < 0
  let _unusedTeammate := closestTeammateToBall
  let hasPossession := closestPlayerToBall.map Player.team = some team
  let previousState := s.state
  if hasPossession then
    if previousState = AIState.defending ∨ previousState = AIState.transitioning_defense then
      (AIState.transitioning_attack, ⟨AIState.transitioning_attack, 2⟩)
    else
      (AIState.attacking, ⟨AIState.attacking, s.stateTimer⟩)
  else
    if previousState = AIState.attacking ∨ previousState = AIState.transitioning_attack then
      (AIState.transitioning_defense, ⟨AIState.transitioning_defense, 3/2⟩)
    else
      (AIState.defending, ⟨AIState.defending, s.stateTimer⟩)

/-- `AIDecisionTree.updateStateTimer`: decrements the timer by the elapsed
time when it is positive, and on expiry resolves `transitioning_attack` to
`attacking` and `transitioning_defense` to `defending`.  It reads no
possession information. -/
def updateStateTimer (deltaTime : ℚ) (s : DTState) : DTState :=
  if 0 < s.stateTimer then
    let t := s.stateTimer - deltaTime
    if t ≤ 0 then
      if s.state = AIState.transitioning_attack then ⟨AIState.attacking, t⟩
      else if s.state = AIState.transitioning_defense then ⟨AIState.defending, t⟩
      else ⟨s.state, t⟩
    else ⟨s.state, t⟩
  else s

/-- Folding a list of elapsed times through `updateStateTimer`. -/
def runStateTimer (s : DTState) (dts : List ℚ) : DTState :=
  dts.foldl (fun m d => updateStateTimer d m) s

/-- The state a transition resolves to once its timer expires. -/
def resolveState : AIState → AIState
  | AIState.transitioning_attack => AIState.attacking
  | AIState.transitioning_defense => AIState.defending
  | s => s

/-! ## AIDecisionTree: decision assembly -/

/-- `AIDecisionTree.findClosestPlayer`: null on an empty list, else the
first player attaining the minimum distance (the loop keeps the earlier
entry on ties). -/
noncomputable def findClosestPlayer (position : Vec3) (players : List Player) :
    Option Player :=
  match players with
  | [] => none
  | p :: rest =>
      some ((rest.foldl
        (fun (best : Player × ℝ) q =>
          let dist := position.distanceTo q.getPosition
          if dist < best.2 then (q, dist) else best)
        (p, position.distanceTo p.getPosition)).1)

/-- `AIDecisionTree.calculateInterceptPriority`. -/
noncomputable def calculateInterceptPriority (player : Player) (ballPos : Vec3)
    (distanceToBall : ℝ) (closestOpponent : Option Player) : ℝ :=
  let _unusedPlayer := player
  if distanceToBall > 10 then 0
  else
    let priority := 10 - distanceToBall
    let boosted :=
      match closestOpponent with
      | some c =>
          if distanceToBall < c.getPosition.distanceTo ballPos then priority + 5
          else priority
      | none => priority
    max 0 (min 10 boosted)

/-- `Math.atan2 y x` restricted to a non-negative second argument, the
only way the source calls it (the second argument is an absolute value). -/
noncomputable def atan2nn (y x : ℝ) : ℝ :=
  if x = 0 then (if y = 0 then 0 else if 0 < y then Real.pi / 2 else -(Real.pi / 2))
  else Real.arctan (y / x)

/-- `AIDecisionTree.evaluateShot`: goal at `teamSide * 52`; a shot is
eligible within 25 units of the goal and 45 degrees of the goal axis. -/
noncomputable def evaluateShot (player : Player) (ballPos : Vec3) : AIDecision :=
  let teamSide : ℝ := if player.team = 1 then -1 else 1
  let goalX := teamSide * 52
  let goalZ : ℝ := 0
  let distanceToGoal := Real.sqrt ((goalX - ballPos.x) ^ 2 + (goalZ - ballPos.z) ^ 2)
  let angleToGoal := abs (atan2nn ballPos.z (abs (goalX - ballPos.x)))
  if distanceToGoal < 25 ∧ angleToGoal < Real.pi / 4 then
    { action := AIAction.shoot,
      priority := max 0 (min 10
        (10 - distanceToGoal / 5 + (1 - angleToGoal / (Real.pi / 4)) * 3)),
      target := some ⟨goalX, 0, goalZ⟩ }
  else
    { action := AIAction.shoot, priority := 0 }

/-- `AIDecisionTree.isPassBlocked`: an opponent blocks when its projection
onto the normalised pass direction lands strictly inside the segment and
its distance to the projected point is below 3. -/
noncomputable def isPassBlocked (fromV toV : Vec3) (opponents : List Player) : Bool :=
  let passDirection := (toV.sub fromV).normalize
  let passDistance := fromV.distanceTo toV
  opponents.any fun opponent =>
    let opponentPos := opponent.getPosition
    let toOpponent := opponentPos.sub fromV
    let projectionLength := toOpponent.dot passDirection
    if 0 < projectionLength ∧ projectionLength < passDistance then
      let closestPoint := fromV.add (passDirection.scale projectionLength)
      let distanceToLane := opponentPos.distanceTo closestPoint
      decide (distanceToLane < 3)
    else false

/-- `AIDecisionTree.evaluatePass`: scans teammates between 5 and 30 units
from the ball with an unblocked lane, scoring 5, plus 3 when ahead along
the attack axis, plus 2 when the nearest opponent of the teammate is over
8 units away; keeps the strictly best scorer. -/
noncomputable def evaluatePass (player : Player) (ballPos : Vec3)
    (teammates opponents : List Player) : AIDecision :=
  let _playerPos := player.getPosition
  let teamSide : ℝ := if player.team = 1 then -1 else 1
  let best := teammates.foldl
    (fun (best : Option Player × ℝ) teammate =>
      let teammatePos := teammate.getPosition
      let distanceToTeammate := ballPos.distanceTo teammatePos
      if distanceToTeammate < 5 ∨ distanceToTeammate > 30 then best
      else
        let isAhead := (teammatePos.x - ballPos.x) * teamSide > 0
        let passBlocked := isPassBlocked ballPos teammatePos opponents
        if passBlocked then best
        else
          let p1 : ℝ := 5
          let p2 := if isAhead then p1 + 3 else p1
          let p3 :=
            match findClosestPlayer teammatePos opponents with
            | some c =>
                if teammatePos.distanceTo c.getPosition > 8 then p2 + 2 else p2
            | none => p2
          if p3 > best.2 then (some teammate, p3) else best)
    (none, 0)
  match best.1 with
  | some t => { action := AIAction.pass, priority := best.2, targetPlayer := some t }
  | none => { action := AIAction.pass, priority := 0 }

/-- The role tags of FormationManager.ts. -/
inductive PlayerRole where
  | goalkeeper
  | defender
  | midfielder
  | striker
deriving DecidableEq, Repr

/-- `AIDecisionTree.getAttackingDecisions`. -/
noncomputable def getAttackingDecisions (player : Player) (role : PlayerRole)
    (ballPos : Vec3) (teammates opponents : List Player) : List AIDecision :=
  let _unusedTeammates := teammates
  let _unusedOpponents := opponents
  let playerPos := player.getPosition
  let distanceToBall := playerPos.distanceTo ballPos
  if role = PlayerRole.striker ∨ role = PlayerRole.midfielder then
    if distanceToBall < 20 then
      [{ action := AIAction.chase_ball, priority := 6, target := some ballPos }]
    else
      [{ action := AIAction.support, priority := 4 }]
  else if role = PlayerRole.defender then
    if distanceToBall < 15 then
      [{ action := AIAction.support, priority := 5 }]
    else
      [{ action := AIAction.pos_hold, priority := 3 }]
  else []

/-- `AIDecisionTree.getDefendingDecisions`.  Note the press guard of the
source: it compares the distance of this player to the ball with the
distance of this player to the teammate closest to the ball. -/
noncomputable def getDefendingDecisions (player : Player) (role : PlayerRole)
    (ballPos : Vec3) (teammates opponents : List Player) : List AIDecision :=
  let playerPos := player.getPosition
  let distanceToBall := playerPos.distanceTo ballPos
  let closestOpponent := findClosestPlayer playerPos opponents
  let _opponentWithBall := findClosestPlayer ballPos opponents
  let teamSide : ℝ := if player.team = 1 then -1 else 1
  let ballInOwnHalf := ballPos.x * teamSide < 0
  let dangerLevel : ℝ := if ballInOwnHalf then 2 else 1
  let closestTeammateToBall := findClosestPlayer ballPos teammates
  let isClosestToBall : Bool :=
    match closestTeammateToBall with
    | none => true
    | some t => decide (distanceToBall < playerPos.distanceTo t.getPosition)
  if isClosestToBall ∧ distanceToBall < 15 then
    [{ action := AIAction.press, priority := 7 * dangerLevel, target := some ballPos }]
  else
    (match closestOpponent with
      | some c =>
          if playerPos.distanceTo c.getPosition < 20 then
            [{ action := AIAction.mark, priority := 5 * dangerLevel,
               targetPlayer := some c }]
          else []
      | none => []) ++
    (if role = PlayerRole.defender then
      [{ action := AIAction.pos_hold, priority := 6 }]
    else
      [{ action := AIAction.pos_hold, priority := 4 }])

/-- The candidate list `decisions` that `AIDecisionTree.makeDecision`
assembles, in push order, before sorting: intercept (step 1), shoot and
pass when close to the ball in the `attacking` state (step 2), role and
state decisions (step 3), and the floor `position` entry (step 4). -/
noncomputable def makeDecisionList (player : Player) (role : PlayerRole)
    (ballPos : Vec3) (allPlayers : List Player) (state : AIState) : List AIDecision :=
  let playerPos := player.getPosition
  let distanceToBall := playerPos.distanceTo ballPos
  let teammates := allPlayers.filter fun p => p.team = player.team ∧ p.pid ≠ player.pid
  let opponents := allPlayers.filter fun p => p.team ≠ player.team
  let _closestOpponent := findClosestPlayer playerPos opponents
  let closestOpponentToBall := findClosestPlayer ballPos opponents
  let step1 :=
    if distanceToBall < 10 then
      let interceptPriority :=
        calculateInterceptPriority player ballPos distanceToBall closestOpponentToBall
      if interceptPriority > 0 then
        [{ action := AIAction.intercept, priority := interceptPriority,
           target := some ballPos }]
      else []
    else []
  let step2 :=
    if distanceToBall < 3 ∧ state = AIState.attacking then
      let shootDecision := evaluateShot player ballPos
      let passDecision := evaluatePass player ballPos teammates opponents
      (if shootDecision.priority > 0 then [shootDecision] else []) ++
        (if passDecision.priority > 0 then [passDecision] else [])
    else []
  let step3 :=
    match state with
    | AIState.attacking => getAttackingDecisions player role ballPos teammates opponents
    | AIState.transitioning_attack =>
        getAttackingDecisions player role ballPos teammates opponents
    | AIState.defending => getDefendingDecisions player role ballPos teammates opponents
    | AIState.transitioning_defense =>
        getDefendingDecisions player role ballPos teammates opponents
  step1 ++ step2 ++ step3 ++ [{ action := AIAction.pos_hold, priority := 1 }]

/-- `AIDecisionTree.makeDecision`: the stable descending sort of the
candidate list followed by taking its head (the list always carries the
floor entry, so the default is never read). -/
noncomputable def makeDecision (player : Player) (role : PlayerRole)
    (ballPos : Vec3) (allPlayers : List Player) (state : AIState) : AIDecision :=
  let decisions := makeDecisionList player role ballPos allPlayers state
  (decisions.mergeSort fun a b => decide (b.priority ≤ a.priority)).headD
    { action := AIAction.pos_hold, priority := 1 }

/-! ## FormationManager -/

/-- The formation names of FormationManager.ts: `2-2`, `3-1`, `1-3`. -/
inductive FormationType where
  | two_two
  | three_one
  | one_three
deriving DecidableEq, Repr

/-- The shape tags of FormationManager.ts. -/
inductive FormationShape where
  | offensive
  | defensive
  | balanced
deriving DecidableEq, Repr

/-- One normalised anchor of a formation template. -/
structure FormationPosition where
  x : ℝ
  z : ℝ
  role : PlayerRole

/-- A formation template: four anchors plus a shape tag. -/
structure Formation where
  positions : List FormationPosition
  shape : FormationShape

/-- `FormationManager.initializeFormations`: the three immutable
templates, as a total map (the source map always holds all three). -/
def initializeFormations : FormationType → Formation
  | FormationType.two_two =>
      ⟨[⟨-0.65, 0, PlayerRole.defender⟩, ⟨-0.45, -0.5, PlayerRole.defender⟩,
        ⟨-0.45, 0.5, PlayerRole.defender⟩, ⟨-0.2, 0, PlayerRole.striker⟩],
       FormationShape.balanced⟩
  | FormationType.three_one =>
      ⟨[⟨-0.7, 0, PlayerRole.defender⟩, ⟨-0.3, -0.4, PlayerRole.midfielder⟩,
        ⟨-0.3, 0.4, PlayerRole.midfielder⟩, ⟨-0.1, 0, PlayerRole.striker⟩],
       FormationShape.offensive⟩
  | FormationType.one_three =>
      ⟨[⟨-0.7, 0, PlayerRole.defender⟩, ⟨-0.55, -0.5, PlayerRole.defender⟩,
        ⟨-0.55, 0.5, PlayerRole.defender⟩, ⟨-0.25, 0, PlayerRole.striker⟩],
       FormationShape.defensive⟩

/-- The mutable field of a `FormationManager`: the current formation.
`fieldLength` (100) and `fieldWidth` (60) are fixed constants. -/
structure FMState where
  currentFormation : FormationType
deriving DecidableEq, Repr

def fieldLength : ℝ := 100

def fieldWidth : ℝ := 60

/-- `FormationManager.getPlayerRole`: midfielder for an out-of-range
player number, else the role of the anchor. -/
def getPlayerRole (fm : FMState) (playerNumber : ℕ) : PlayerRole :=
  let formation := initializeFormations fm.currentFormation
  if playerNumber ≥ formation.positions.length then PlayerRole.midfielder
  else (formation.positions.getD playerNumber ⟨0, 0, PlayerRole.midfielder⟩).role

/-- `FormationManager.calculateBallOffsetX`: defenders get no offset;
midfielders and strikers get a capped forward offset when attacking with
the ball in the opponent half. -/
noncomputable def calculateBallOffsetX (fm : FMState) (ballPosition : Vec3) (player : Player)
    (isAttacking : Bool) (teamSide : ℝ) : ℝ :=
  let role := getPlayerRole fm player.playerNumber
  if role = PlayerRole.defender then 0
  else if isAttacking then
    let ballX := ballPosition.x * teamSide
    if ballX > 0 then min 10 (ballX * 0.3) * teamSide else 0
  else 0

/-- `FormationManager.calculateBallOffsetZ`: a lateral pull toward the
ball z-line, clamped to 8 units, active beyond 10 units of lateral
distance.  The role argument is unused, as in the source. -/
noncomputable def calculateBallOffsetZ (ballPosition : Vec3) (player : Player)
    (role : PlayerRole) : ℝ :=
  let _unusedRole := role
  let playerPos := player.getPosition
  let lateralDistance := |playerPos.z - ballPosition.z|
  if lateralDistance > 10 then
    let shift := (ballPosition.z - playerPos.z) * 0.2
    max (-8) (min 8 shift)
  else 0

/-- `FormationManager.getFormationPosition`: anchor scaled to the half
field and mirrored by team side, ball offsets, shape bias, and the final
clamp to the field bounds.  The `isTransitioning` argument is declared
and unused, as in the source. -/
noncomputable def getFormationPosition (fm : FMState) (player : Player) (ballPosition : Vec3)
    (isAttacking : Bool) (isTransitioning : Bool) : Vec3 :=
  let _unusedTransitioning := isTransitioning
  let formation := initializeFormations fm.currentFormation
  if player.playerNumber ≥ formation.positions.length then ⟨0, 0, 0⟩
  else
    let basePos := formation.positions.getD player.playerNumber
      ⟨0, 0, PlayerRole.midfielder⟩
    let teamSide : ℝ := if player.team = 1 then -1 else 1
    let targetX0 := basePos.x * (fieldLength / 2) * teamSide
    let targetZ0 := basePos.z * (fieldWidth / 2)
    let ballOffsetX := calculateBallOffsetX fm ballPosition player isAttacking teamSide
    let ballOffsetZ := calculateBallOffsetZ ballPosition player basePos.role
    let targetX1 := targetX0 + ballOffsetX
    let targetZ1 := targetZ0 + ballOffsetZ
    let targetX2 :=
      if isAttacking ∧ formation.shape ≠ FormationShape.defensive then
        targetX1 + 5 * teamSide
      else if ¬ (isAttacking : Prop) ∧ formation.shape ≠ FormationShape.offensive then
        targetX1 - 5 * teamSide
      else targetX1
    let maxX : ℝ := 45
    let maxZ : ℝ := 25
    ⟨max (-maxX) (min maxX targetX2), 0, max (-maxZ) (min maxZ targetZ1)⟩

/-- `FormationManager.getSupportPosition`. -/
noncomputable def getSupportPosition (fm : FMState) (player : Player)
    (ballPosition : Vec3) (teammates : List Player) : Vec3 :=
  let _unusedTeammates := teammates
  let playerPos := player.getPosition
  let role := getPlayerRole fm player.playerNumber
  let teamSide : ℝ := if player.team = 1 then -1 else 1
  let targetPos :=
    if role = PlayerRole.striker ∨ role = PlayerRole.midfielder then
      if (ballPosition.x - playerPos.x) * teamSide < 0 then
        Vec3.mk (playerPos.x + 10 * teamSide) playerPos.y playerPos.z
      else
        let preferredZ : ℝ := if player.playerNumber % 2 = 0 then 15 else -15
        Vec3.mk (ballPosition.x + 8 * teamSide) playerPos.y preferredZ
    else if role = PlayerRole.defender then
      Vec3.mk (ballPosition.x - 10 * teamSide) playerPos.y (ballPosition.z * 0.5)
    else playerPos
  let maxX : ℝ := 45
  let maxZ : ℝ := 25
  ⟨max (-maxX) (min maxX targetPos.x), targetPos.y, max (-maxZ) (min maxZ targetPos.z)⟩

/-- `FormationManager.getMarkingPosition`: 2.5 units from the opponent
along the normalised direction toward the point `(teamSide * 50, , 0)`,
then clamped to the field bounds.  The ball position argument is unused,
as in the source. -/
noncomputable def getMarkingPosition (player : Player) (opponent : Player)
    (ballPosition : Vec3) : Vec3 :=
  let _unusedBall := ballPosition
  let opponentPos := opponent.getPosition
  let teamSide : ℝ := if player.team = 1 then -1 else 1
  let goalX := teamSide * 50
  let directionToGoal := (Vec3.mk (goalX - opponentPos.x) 0 (-opponentPos.z)).normalize
  let markingPos := opponentPos.add (directionToGoal.scale (5/2))
  let maxX : ℝ := 45
  let maxZ : ℝ := 25
  ⟨max (-maxX) (min maxX markingPos.x), markingPos.y, max (-maxZ) (min maxZ markingPos.z)⟩

/-- The marking point as the spec words it: 2.5 units from the opponent
along the direction from the opponent toward the goal the marking
player's team defends.  Under the side conventions of the formation
anchors and of `evaluateShot`, a team with `teamSide` attacks the goal at
`teamSide * 52` and defends the goal on the opposite side, so the
own-goal abscissa is `-teamSide * 50` here (mirroring the magnitude the
source uses).  Declared only to be compared against `getMarkingPosition`. -/
noncomputable def getMarkingPositionSpec (player : Player) (opponent : Player)
    (ballPosition : Vec3) : Vec3 :=
  let _unusedBall := ballPosition
  let opponentPos := opponent.getPosition
  let teamSide : ℝ := if player.team = 1 then -1 else 1
  let ownGoalX := -teamSide * 50
  let directionToGoal := (Vec3.mk (ownGoalX - opponentPos.x) 0 (-opponentPos.z)).normalize
  let markingPos := opponentPos.add (directionToGoal.scale (5/2))
  let maxX : ℝ := 45
  let maxZ : ℝ := 25
  ⟨max (-maxX) (min maxX markingPos.x), markingPos.y, max (-maxZ) (min maxZ markingPos.z)⟩

/-- `FormationManager.recommendFormation`: offensive when trailing by 2
or more, defensive when leading by 2 or more, else balanced. -/
def recommendFormation (ballPosition : Vec3) (team : ℕ)
    (scoreDifference : ℤ) : FormationType :=
  let teamSide : ℝ := if team = 1 then -1 else 1
  let _ballInOwnHalf : Prop := ballPosition.x * teamSide < 0
  if scoreDifference < -1 then FormationType.three_one
  else if scoreDifference > 1 then FormationType.one_three
  else FormationType.two_two

/-! ## DifficultyManager -/

/-- The difficulty levels of DifficultyManager.ts. -/
inductive DifficultyLevel where
  | easy
  | medium
  | hard
deriving DecidableEq, Repr

/-- The `DifficultySettings` tuning bundle. -/
structure DifficultySettings where
  reactionTime : ℚ
  movementSpeed : ℚ
  accuracy : ℚ
  visionRange : ℚ
  decisionQuality : ℚ
  positioningAccuracy : ℚ
  tacticAwareness : ℚ
  passFrequency : ℚ
  errorMargin : ℚ
deriving DecidableEq, Repr

/-- `DifficultyManager.initializeSettings`: the three fixed bundles. -/
def initializeSettings : DifficultyLevel → DifficultySettings
  | DifficultyLevel.easy => ⟨1/2, 7/10, 1/2, 15, 2/5, 1/2, 3/10, 3/10, 5⟩
  | DifficultyLevel.medium => ⟨1/5, 9/10, 3/4, 25, 7/10, 3/4, 3/5, 1/2, 5/2⟩
  | DifficultyLevel.hard => ⟨1/20, 1, 19/20, 35, 19/20, 19/20, 9/10, 7/10, 1/2⟩

/-- The mutable fields of a `DifficultyManager`: the current level and the
per-player reaction-timer map. -/
structure DMState where
  currentDifficulty : DifficultyLevel
  playerReactionTimers : String → Option ℚ

/-- `DifficultyManager.getSettings` for the current difficulty. -/
def getSettings (m : DMState) : DifficultySettings :=
  initializeSettings m.currentDifficulty

/-- `DifficultyManager.shouldReact`: decrements the tracked timer (an
untracked player reads 0) and, when it reaches zero or less, returns true
and resets it to `reactionTime + (rand - 0.5) * (reactionTime * 0.3)`,
that is reaction time plus or minus 15 percent; `rand` stands for the
`Math.random()` draw. -/
def shouldReact (m : DMState) (playerId : String) (deltaTime : ℚ) (rand : ℚ) :
    Bool × DMState :=
  let settings := getSettings m
  let timer := (m.playerReactionTimers playerId).getD 0 - deltaTime
  if timer ≤ 0 then
    let variance := settings.reactionTime * (3/10)
    let newTimer := settings.reactionTime + (rand - 1/2) * variance
    (true, { m with playerReactionTimers :=
        fun s => if s = playerId then some newTimer else m.playerReactionTimers s })
  else
    (false, { m with playerReactionTimers :=
        fun s => if s = playerId then some timer else m.playerReactionTimers s })

/-- Chains `shouldReact` calls for one player: each list entry is one call
as an (elapsed time, random draw) pair; the result records whether any
call returned true. -/
def reactRun (m : DMState) (playerId : String) : List (ℚ × ℚ) → Bool
  | [] => false
  | c :: rest =>
      let r := shouldReact m playerId c.1 c.2
      r.1 || reactRun r.2 playerId rest

/-! ## AIController -/

/-- The mutable fields of an `AIController` that `updateTeamState`
touches: one `FormationManager`, ONE shared `AIDecisionTree` instance,
and the per-team `teamStates` map (the constructor stores `defending`
for both teams and a fresh decision tree). -/
structure AIControllerState where
  formation : FMState
  decisionTree : DTState
  teamStates : ℕ → AIState

/-- The `AIController` constructor state: formation `2-2`, a fresh
decision tree (`defending`, timer 0), both team states `defending`. -/
def aiControllerInit : AIControllerState :=
  ⟨⟨FormationType.two_two⟩, ⟨AIState.defending, 0⟩, fun _ => AIState.defending⟩

/-- The closest-player scan of `AIController.updateTeamState`: one pass
over all players tracking the closest overall and the closest member of
the queried team (both starting from an infinite distance, modelled with
`Option`). -/
noncomputable def closestPlayersScan (ballPos : Vec3) (team : ℕ)
    (allPlayers : List Player) : Option Player × Option Player :=
  let r := allPlayers.foldl
    (fun (acc : Option (Player × ℝ) × Option (Player × ℝ)) p =>
      let dist := p.getPosition.distanceTo ballPos
      let overall :=
        match acc.1 with
        | none => some (p, dist)
        | some (c, d) => if dist < d then some (p, dist) else some (c, d)
      let onTeam :=
        match acc.2 with
        | none => if p.team = team then some (p, dist) else none
        | some (c, d) =>
            if p.team = team ∧ dist < d then some (p, dist) else some (c, d)
      (overall, onTeam))
    (none, none)
  (r.1.map Prod.fst, r.2.map Prod.fst)

/-- `AIController.updateTeamState`: scans for the closest players, runs
`determineState` on the SHARED decision tree, stores the result in the
per-team map, ticks the shared state timer, and, when the advanced-tactics
draw fires, recomputes the formation from a score difference of 0 - 0
(the source hard-codes that difference).  `advTactics` stands for the
`shouldUseAdvancedTactics` random draw. -/
noncomputable def updateTeamState (c : AIControllerState) (team : ℕ) (ballPos : Vec3)
    (allPlayers : List Player) (deltaTime : ℚ) (advTactics : Bool) :
    AIControllerState :=
  let scan := closestPlayersScan ballPos team allPlayers
  let r := determineState team ballPos scan.1 scan.2 c.decisionTree
  let c1 : AIControllerState :=
    { c with
      teamStates := fun t => if t = team then r.1 else c.teamStates t,
      decisionTree := updateStateTimer deltaTime r.2 }
  if advTactics then
    let scoreDiff : ℤ := 0 - 0
    let recommended := recommendFormation ballPos team scoreDiff
    { c1 with formation := ⟨recommended⟩ }
  else c1

/-- The per-team transition table exactly as the spec states it: team
state is a separate per-team value, and the next state of one team reads
only that team's own previous state and the possession bit.  Declared
only to be compared against what `updateTeamState` stores. -/
def specNextTeamState (previous : AIState) (hasPossession : Bool) : AIState :=
  if hasPossession then
    if previous = AIState.defending ∨ previous = AIState.transitioning_defense then
      AIState.transitioning_attack
    else AIState.attacking
  else
    if previous = AIState.attacking ∨ previous = AIState.transitioning_attack then
      AIState.transitioning_defense
    else AIState.defending

/-! ## Ball physics extension -/

/-- `Ball.applyMagnusEffect` as a velocity transformer: reads the body
velocity and the spin, and when the speed exceeds 1 and the spin
magnitude exceeds 0.1 adds `(spin x velocity) * 0.003 * 0.016` to the
velocity (`update` calls it after `applyAirResistance`, so the velocity
here is the post-drag one). -/
noncomputable def applyMagnusEffect (velocity spin : Vec3) : Vec3 :=
  let speed := velocity.length
  if speed > 1 ∧ spin.length > 0.1 then
    let magnusForce := (Vec3.cross spin velocity).scale 0.003
    velocity.add (magnusForce.scale 0.016)
  else velocity

/-! ## ShootingSystem -/

/-- The `ShotType` enum of ShootingSystem.ts. -/
inductive ShotType where
  | GROUND
  | CHIP
  | LOB
deriving DecidableEq, Repr

/-- The ball state the shooting system touches: position, velocity, the
simulated spin vector and the body angular velocity (`Ball.applySpin`
writes the last two together). -/
structure BallState where
  pos : Vec3
  velocity : Vec3
  spin : Vec3
  angularVelocity : Vec3

/-- `ShootingSystem.calculateAccuracyCone`: 5 degrees below power 60, 8
below 90, 15 above. -/
noncomputable def calculateAccuracyCone (powerPercent : ℝ) : ℝ :=
  if powerPercent < 60 then 5
  else if powerPercent < 90 then 8
  else 15

/-- `ShootingSystem.applyAccuracySpread`: rotation of the direction about
the world up axis by a uniform draw inside the cone
(`applyAxisAngle((0,1,0), spreadX)` is the xz-plane rotation), then
normalisation; `rand` stands for the `Math.random()` draw. -/
noncomputable def applyAccuracySpread (direction : Vec3) (coneDegrees : ℝ)
    (rand : ℝ) : Vec3 :=
  let coneRadians := coneDegrees * Real.pi / 180
  let spreadX := (rand - 1/2) * coneRadians
  let rotatedDir : Vec3 :=
    ⟨direction.x * Real.cos spreadX + direction.z * Real.sin spreadX,
     direction.y,
     -direction.x * Real.sin spreadX + direction.z * Real.cos spreadX⟩
  rotatedDir.normalize

/-- `ShootingSystem.determineShotType`: GROUND below power 40, CHIP below
75, LOB above. -/
noncomputable def determineShotType (powerPercent : ℝ) : ShotType :=
  if powerPercent < 40 then ShotType.GROUND
  else if powerPercent < 75 then ShotType.CHIP
  else ShotType.LOB

/-- `ShootingSystem.calculateSpin`: cross of the direction with world up,
scaled by the power-dependent strength and half the centred random draw. -/
noncomputable def calculateSpin (direction : Vec3) (powerPercent : ℝ)
    (rand : ℝ) : Vec3 :=
  let spinMultiplier := powerPercent / 100
  let spinStrength := 3 + spinMultiplier * 7
  (Vec3.cross direction ⟨0, 1, 0⟩).scale (spinStrength * (rand - 1/2) * (1/2))

/-- `ShootingSystem.applyShot`: horizontal speed from the 20-50 power
band, vertical component from the shot type, and `Ball.applySpin` writing
both the spin and the body angular velocity. -/
noncomputable def applyShot (ball : BallState) (power : ℝ) (direction : Vec3)
    (shotType : ShotType) (spin : Vec3) : BallState :=
  let minPower : ℝ := 20
  let maxPower : ℝ := 50
  let powerMultiplier := minPower + power / 100 * (maxPower - minPower)
  let verticalComponent :=
    match shotType with
    | ShotType.GROUND => 3 + power / 100 * 2
    | ShotType.CHIP => 5 + power / 100 * 5
    | ShotType.LOB => 10 + power / 100 * 8
  { ball with
    velocity := ⟨direction.x * powerMultiplier, verticalComponent,
      direction.z * powerMultiplier⟩,
    spin := spin,
    angularVelocity := spin }

/-- `ShootingSystem.executeShotFromPlayer`: refuses (returning false and
touching nothing) beyond 3 units from the ball; otherwise blends the
facing with the joystick direction, applies the accuracy cone, picks the
shot type and spin, applies the shot, and returns true.  `randSpread` and
`randSpin` stand for the two `Math.random()` draws. -/
noncomputable def executeShotFromPlayer (player : Player) (ball : BallState)
    (powerPercent : ℝ) (joystickInput : Option (ℝ × ℝ))
    (randSpread randSpin : ℝ) : Bool × BallState :=
  let playerPos := player.getPosition
  let ballPos := ball.pos
  let distance := playerPos.distanceTo ballPos
  if distance > 3 then (false, ball)
  else
    let playerFacing := (Vec3.mk (Real.sin player.rotY) 0 (Real.cos player.rotY)).normalize
    let shootDirection0 :=
      match joystickInput with
      | some j =>
          if |j.1| > 0.1 ∨ |j.2| > 0.1 then
            ((playerFacing.lerp ((Vec3.mk j.1 0 (-j.2)).normalize) (3/10))).normalize
          else playerFacing
      | none => playerFacing
    let accuracyCone := calculateAccuracyCone powerPercent
    let shootDirection := applyAccuracySpread shootDirection0 accuracyCone randSpread
    let shotType := determineShotType powerPercent
    let spin := calculateSpin shootDirection powerPercent randSpin
    (true, applyShot ball powerPercent shootDirection shotType spin)

/-! ## Concrete inputs used by the counterexample and bug-exhibiting
theorems -/

/-- C2 scenario: a team-2 striker one unit from the ball. -/
def pC2 : Player := ⟨1, 2, 3, ⟨39, 0, 0⟩, ⟨0, 0, 0⟩, 0⟩

/-- C2 scenario: the only other player, a team-1 opponent 5 units from
the ball. -/
def qC2 : Player := ⟨2, 1, 0, ⟨40, 0, 5⟩, ⟨0, 0, 0⟩, 0⟩

/-- C2 scenario: the ball, 12 units from the goal of team 2. -/
def ballC2 : Vec3 := ⟨40, 0, 0⟩

/-- C3 scenario: a team-1 player 10 units from the ball. -/
def pC3 : Player := ⟨1, 1, 1, ⟨0, 0, 0⟩, ⟨0, 0, 0⟩, 0⟩

/-- C3 scenario: the teammate of `pC3`, only 1 unit from the ball but 11
units from `pC3`. -/
def tC3 : Player := ⟨2, 1, 2, ⟨11, 0, 0⟩, ⟨0, 0, 0⟩, 0⟩

/-- C3 scenario: a far-away opponent. -/
def oC3 : Player := ⟨3, 2, 0, ⟨-40, 0, 0⟩, ⟨0, 0, 0⟩, 0⟩

/-- C3 scenario: the ball. -/
def ballC3 : Vec3 := ⟨10, 0, 0⟩

/-- C4 scenario: a team-1 marker (player number 0, a defender in the
default formation). -/
def mC4 : Player := ⟨1, 1, 0, ⟨30, 0, 0⟩, ⟨0, 0, 0⟩, 0⟩

/-- C4 scenario: the opponent to mark, standing at the field centre. -/
def oC4 : Player := ⟨2, 2, 0, ⟨0, 0, 0⟩, ⟨0, 0, 0⟩, 0⟩

/-- C4 scenario: a ball position near the goal team 1 attacks, making a
shot by `mC4` eligible. -/
def ballNearC4 : Vec3 := ⟨-40, 0, 0⟩

/-- C1 scenario: the team-1 player, closest overall to the ball. -/
def aC1 : Player := ⟨1, 1, 0, ⟨1, 0, 0⟩, ⟨0, 0, 0⟩, 0⟩

/-- C1 scenario: the team-2 player, farther from the ball. -/
def bC1 : Player := ⟨2, 2, 0, ⟨5, 0, 0⟩, ⟨0, 0, 0⟩, 0⟩

/-- C1 scenario: the controller state after team 1's `updateTeamState`
call of the tick. -/
noncomputable def c1C1 : AIControllerState :=
  updateTeamState aiControllerInit 1 ⟨0, 0, 0⟩ [aC1, bC1] (1/60) false

/-- C1 scenario: the controller state after team 2's subsequent
`updateTeamState` call of the same tick. -/
noncomputable def c2C1 : AIControllerState :=
  updateTeamState c1C1 2 ⟨0, 0, 0⟩ [aC1, bC1] (1/60) false

end Soccer

namespace Soccer

/-! ## Shared helper lemmas -/

lemma real_sqrt_eval (a b : ℝ) (hb : 0 ≤ b) (h : b ^ 2 = a) : Real.sqrt a = b := by
  subst h
  exact Real.sqrt_sq hb

lemma clamp_abs_le (a M : ℝ) (hM : 0 ≤ M) : |max (-M) (min M a)| ≤ M := by
  rw [abs_le]
  constructor
  · exact le_max_left _ _
  · exact max_le (by linarith) (min_le_left _ _)

lemma length_eval (v : Vec3) (b : ℝ) (hb : 0 ≤ b)
    (h : b ^ 2 = v.x ^ 2 + v.y ^ 2 + v.z ^ 2) : v.length = b := by
  unfold Vec3.length
  exact real_sqrt_eval _ b hb h

lemma distanceTo_eval (a c : Vec3) (d : ℝ) (hd : 0 ≤ d)
    (h : d ^ 2 = (a.x - c.x) ^ 2 + (a.y - c.y) ^ 2 + (a.z - c.z) ^ 2) :
    a.distanceTo c = d := by
  unfold Vec3.distanceTo
  exact real_sqrt_eval _ d hd h

lemma normalize_eval (v : Vec3) (l : ℝ) (hl : v.length = l) (hne : l ≠ 0) :
    v.normalize = v.scale (1 / l) := by
  simp [Vec3.normalize, hl, hne]

/-! ## C5: state machine transition and timer resolution -/

lemma updateStateTimer_stable (d : ℚ) (s : DTState)
    (h : s.state = AIState.attacking ∨ s.state = AIState.defending) :
    (updateStateTimer d s).state = s.state := by
  rcases h with h | h <;>
    simp only [updateStateTimer, h] <;>
    split <;> simp_all

lemma runStateTimer_stable (dts : List ℚ) (s : DTState)
    (h : s.state = AIState.attacking ∨ s.state = AIState.defending) :
    (runStateTimer s dts).state = s.state := by
  induction dts generalizing s with
  | nil => rfl
  | cons d rest ih =>
      have hstep := updateStateTimer_stable d s h
      have hrun : (runStateTimer s (d :: rest)) = runStateTimer (updateStateTimer d s) rest := rfl
      rw [hrun, ih (updateStateTimer d s) (by rw [hstep]; exact h), hstep]

lemma runStateTimer_resolves (dts : List ℚ) (s : DTState)
    (h : s.state = AIState.transitioning_attack ∨ s.state = AIState.transitioning_defense)
    (ht : 0 < s.stateTimer) (hsum : s.stateTimer ≤ dts.sum) :
    (runStateTimer s dts).state = resolveState s.state := by
  induction dts generalizing s with
  | nil =>
      exfalso
      simp only [List.sum_nil] at hsum
      linarith
  | cons d rest ih =>
      have hrun : runStateTimer s (d :: rest) = runStateTimer (updateStateTimer d s) rest := rfl
      by_cases hd : s.stateTimer ≤ d
      · have hstep : (updateStateTimer d s).state = resolveState s.state := by
          rcases h with h | h <;> simp [updateStateTimer, ht, hd, h, resolveState]
        have hres : resolveState s.state = AIState.attacking ∨
            resolveState s.state = AIState.defending := by
          rcases h with h | h <;> simp [h, resolveState]
        rw [hrun, runStateTimer_stable rest _ (by rw [hstep]; exact hres), hstep]
      · have hstep : updateStateTimer d s = ⟨s.state, s.stateTimer - d⟩ := by
          simp [updateStateTimer, ht, hd]
        rw [hrun, hstep]
        have hsum2 : s.stateTimer - d ≤ rest.sum := by
          simp only [List.sum_cons] at hsum
          linarith
        push_neg at hd
        exact ih ⟨s.state, s.stateTimer - d⟩ h (by simpa using sub_pos.mpr hd) hsum2

/-- C5: from `defending`, a possession flip yields `transitioning_attack`
with a 2.0 second timer; and whenever the elapsed times fed to
`updateStateTimer` accumulate to the timer value, `transitioning_attack`
resolves to `attacking` and `transitioning_defense` to `defending` —
`updateStateTimer` takes no possession input, so possession at that
instant is irrelevant by construction. -/
theorem determineState_flip_sets_transition_and_timer_resolves
    (team : ℕ) (ballPosition : Vec3) (cp : Player) (ctm : Option Player) (s : DTState)
    (hprev : s.state = AIState.defending) (hteam : cp.team = team) :
    (determineState team ballPosition (some cp) ctm s).1 = AIState.transitioning_attack ∧
    (determineState team ballPosition (some cp) ctm s).2 =
      ⟨AIState.transitioning_attack, 2⟩ ∧
    (∀ dts : List ℚ, (2 : ℚ) ≤ dts.sum →
      (runStateTimer (determineState team ballPosition (some cp) ctm s).2 dts).state =
        AIState.attacking) ∧
    (∀ (s2 : DTState) (dts : List ℚ), s2.state = AIState.transitioning_defense →
      0 < s2.stateTimer → s2.stateTimer ≤ dts.sum →
      (runStateTimer s2 dts).state = AIState.defending) := by
  have hposs : (Option.map Player.team (some cp)) = some team := by
    simp [Option.map, hteam]
  have hdet : determineState team ballPosition (some cp) ctm s =
      (AIState.transitioning_attack, ⟨AIState.transitioning_attack, 2⟩) := by
    simp [determineState, hposs, hprev]
  refine ⟨by rw [hdet], by rw [hdet], ?_, ?_⟩
  · intro dts hsum
    rw [hdet]
    have := runStateTimer_resolves dts ⟨AIState.transitioning_attack, 2⟩
      (Or.inl rfl) (by norm_num) (by simpa using hsum)
    simpa [resolveState] using this
  · intro s2 dts h2 ht2 hsum2
    have := runStateTimer_resolves dts s2 (Or.inr h2) ht2 hsum2
    rw [this, h2]
    rfl

/-- Witness for C5 at a concrete input: team 1, a team-1 player closest to
the ball, previous state `defending`. -/
theorem determineState_flip_witness :
    ((⟨AIState.defending, 0⟩ : DTState).state = AIState.defending ∧
      (Player.mk 0 1 0 ⟨0, 0, 0⟩ ⟨0, 0, 0⟩ 0).team = 1) ∧
    ((determineState 1 ⟨0, 0, 0⟩ (some (Player.mk 0 1 0 ⟨0, 0, 0⟩ ⟨0, 0, 0⟩ 0)) none
        ⟨AIState.defending, 0⟩).1 = AIState.transitioning_attack ∧
      (determineState 1 ⟨0, 0, 0⟩ (some (Player.mk 0 1 0 ⟨0, 0, 0⟩ ⟨0, 0, 0⟩ 0)) none
        ⟨AIState.defending, 0⟩).2 = ⟨AIState.transitioning_attack, 2⟩ ∧
      (∀ dts : List ℚ, (2 : ℚ) ≤ dts.sum →
        (runStateTimer (determineState 1 ⟨0, 0, 0⟩
            (some (Player.mk 0 1 0 ⟨0, 0, 0⟩ ⟨0, 0, 0⟩ 0)) none
            ⟨AIState.defending, 0⟩).2 dts).state = AIState.attacking) ∧
      (∀ (s2 : DTState) (dts : List ℚ), s2.state = AIState.transitioning_defense →
        0 < s2.stateTimer → s2.stateTimer ≤ dts.sum →
        (runStateTimer s2 dts).state = AIState.defending)) :=
  ⟨⟨rfl, rfl⟩,
    determineState_flip_sets_transition_and_timer_resolves 1 ⟨0, 0, 0⟩
      (Player.mk 0 1 0 ⟨0, 0, 0⟩ ⟨0, 0, 0⟩ 0) none ⟨AIState.defending, 0⟩ rfl rfl⟩

/-! ## C8: reaction timer jitter bound -/

lemma reactRun_false_sum_lt (playerId : String) (calls : List (ℚ × ℚ)) :
    ∀ m : DMState, calls ≠ [] → reactRun m playerId calls = false →
      (calls.map Prod.fst).sum < (m.playerReactionTimers playerId).getD 0 := by
  induction calls with
  | nil => intro m h; exact absurd rfl h
  | cons c rest ih =>
      intro m _ hfalse
      have hparts : (shouldReact m playerId c.1 c.2).1 = false ∧
          reactRun (shouldReact m playerId c.1 c.2).2 playerId rest = false := by
        have hdef : reactRun m playerId (c :: rest) =
            ((shouldReact m playerId c.1 c.2).1 ||
              reactRun (shouldReact m playerId c.1 c.2).2 playerId rest) := rfl
        rw [hdef] at hfalse
        exact Bool.or_eq_false_iff.mp hfalse
      have hgt : c.1 < (m.playerReactionTimers playerId).getD 0 := by
        by_contra hc
        push_neg at hc
        have htrue : (shouldReact m playerId c.1 c.2).1 = true := by
          simp [shouldReact, hc]
        rw [htrue] at hparts
        exact absurd hparts.1 (by simp)
      have hnotle : ¬ ((m.playerReactionTimers playerId).getD 0 ≤ c.1) := not_le.mpr hgt
      have hsnd : (shouldReact m playerId c.1 c.2).2.playerReactionTimers playerId =
          some ((m.playerReactionTimers playerId).getD 0 - c.1) := by
        simp [shouldReact, hnotle]
      by_cases hrest : rest = []
      · subst hrest
        simp only [List.map_cons, List.map_nil, List.sum_cons, List.sum_nil, add_zero]
        linarith
      · have hih := ih (shouldReact m playerId c.1 c.2).2 hrest hparts.2
        rw [hsnd] at hih
        simp only [Option.getD_some] at hih
        simp only [List.map_cons, List.sum_cons]
        linarith

/-- C8: for every difficulty level and tracked player whose stored timer
does not exceed 1.15 times the reaction time (which holds for every
reachable state, the second conjunct), any sequence of `shouldReact` calls
whose elapsed times sum to at least 1.3 times the reaction time contains a
call returning true; and every reset performed by a true call stores a
timer of at most 1.15 times the reaction time whenever the random draw
lies in [0, 1]. -/
theorem shouldReact_fires_within_jitter_bound
    (lvl : DifficultyLevel) (timers : String → Option ℚ) (playerId : String)
    (calls : List (ℚ × ℚ))
    (h0 : (timers playerId).getD 0 ≤ (23/20) * (initializeSettings lvl).reactionTime)
    (hsum : (13/10) * (initializeSettings lvl).reactionTime ≤ (calls.map Prod.fst).sum) :
    reactRun ⟨lvl, timers⟩ playerId calls = true ∧
    (∀ (m : DMState) (pid2 : String) (dt r : ℚ), 0 ≤ r → r ≤ 1 →
      (shouldReact m pid2 dt r).1 = true →
      ((shouldReact m pid2 dt r).2.playerReactionTimers pid2).getD 0 ≤
        (23/20) * (getSettings m).reactionTime) := by
  have hrtpos : ∀ l : DifficultyLevel, 0 < (initializeSettings l).reactionTime := by
    intro l; cases l <;> norm_num [initializeSettings]
  constructor
  · by_contra hfail
    have hfalse : reactRun ⟨lvl, timers⟩ playerId calls = false := by
      cases h : reactRun ⟨lvl, timers⟩ playerId calls
      · rfl
      · exact absurd h hfail
    have hne : calls ≠ [] := by
      intro hnil
      subst hnil
      simp only [List.map_nil, List.sum_nil] at hsum
      have := hrtpos lvl
      nlinarith
    have := reactRun_false_sum_lt playerId calls ⟨lvl, timers⟩ hne hfalse
    have := hrtpos lvl
    nlinarith
  · intro m pid2 dt r hr0 hr1 htrue
    by_cases hle : (m.playerReactionTimers pid2).getD 0 ≤ dt
    · have hsnd : (shouldReact m pid2 dt r).2.playerReactionTimers pid2 =
          some ((getSettings m).reactionTime +
            (r - 1/2) * ((getSettings m).reactionTime * (3/10))) := by
        simp [shouldReact, hle]
      rw [hsnd]
      simp only [Option.getD_some]
      have hrt : 0 < (getSettings m).reactionTime := hrtpos m.currentDifficulty
      nlinarith
    · exfalso
      have hfalse : (shouldReact m pid2 dt r).1 = false := by
        simp [shouldReact, hle]
      rw [hfalse] at htrue
      exact absurd htrue (by simp)

/-- Witness for C8: medium difficulty (reaction time 0.2), an untracked
player, a single call with elapsed time 0.3 which is at least 0.26. -/
theorem shouldReact_fires_witness :
    (((fun _ : String => (none : Option ℚ)) "1-0").getD 0 ≤
        (23/20) * (initializeSettings DifficultyLevel.medium).reactionTime ∧
      (13/10) * (initializeSettings DifficultyLevel.medium).reactionTime ≤
        (([((3 : ℚ)/10, (1 : ℚ)/2)].map Prod.fst).sum)) ∧
    (reactRun ⟨DifficultyLevel.medium, fun _ => none⟩ "1-0" [((3 : ℚ)/10, (1 : ℚ)/2)] = true ∧
      (∀ (m : DMState) (pid2 : String) (dt r : ℚ), 0 ≤ r → r ≤ 1 →
        (shouldReact m pid2 dt r).1 = true →
        ((shouldReact m pid2 dt r).2.playerReactionTimers pid2).getD 0 ≤
          (23/20) * (getSettings m).reactionTime)) :=
  ⟨⟨by norm_num [initializeSettings], by norm_num [initializeSettings]⟩,
    shouldReact_fires_within_jitter_bound DifficultyLevel.medium (fun _ => none) "1-0"
      [((3 : ℚ)/10, (1 : ℚ)/2)]
      (by norm_num [initializeSettings])
      (by norm_num [initializeSettings])⟩

/-! ## C6: formation positions stay within the field bounds -/

/-- C6: for every formation, player (any team and any player number),
ball position (however extreme) and attacking flag, the point
`getFormationPosition` returns satisfies both bound constraints. -/
theorem getFormationPosition_within_bounds (fm : FMState) (player : Player)
    (ballPosition : Vec3) (isAttacking isTransitioning : Bool) :
    |(getFormationPosition fm player ballPosition isAttacking isTransitioning).x| ≤ 45 ∧
    |(getFormationPosition fm player ballPosition isAttacking isTransitioning).z| ≤ 25 := by
  by_cases h : player.playerNumber ≥
      (initializeFormations fm.currentFormation).positions.length
  · simp [getFormationPosition, h]
  · constructor
    · simp only [getFormationPosition, if_neg h]
      exact clamp_abs_le _ _ (by norm_num)
    · simp only [getFormationPosition, if_neg h]
      exact clamp_abs_le _ _ (by norm_num)

/-! ## C9: Magnus effect gate and perpendicularity -/

/-- C9: whenever the speed exceeds 1 and the spin magnitude exceeds 0.1,
the Magnus step adds exactly `(spin x velocity) * 0.003 * 0.016` to the
velocity and that delta is exactly perpendicular to the velocity it is
applied to; otherwise the velocity is returned untouched.  The closing
conjunct shows the gate fires on a concrete input. -/
theorem applyMagnusEffect_perpendicular_delta :
    (∀ velocity spin : Vec3,
      (velocity.length > 1 → spin.length > 0.1 →
        applyMagnusEffect velocity spin =
          velocity.add (((Vec3.cross spin velocity).scale 0.003).scale 0.016) ∧
        Vec3.dot ((applyMagnusEffect velocity spin).sub velocity) velocity = 0) ∧
      (velocity.length ≤ 1 ∨ spin.length ≤ 0.1 →
        applyMagnusEffect velocity spin = velocity)) ∧
    applyMagnusEffect ⟨2, 0, 0⟩ ⟨0, 1, 0⟩ ≠ (⟨2, 0, 0⟩ : Vec3) := by
  have hmain : ∀ velocity spin : Vec3,
      (velocity.length > 1 → spin.length > 0.1 →
        applyMagnusEffect velocity spin =
          velocity.add (((Vec3.cross spin velocity).scale 0.003).scale 0.016) ∧
        Vec3.dot ((applyMagnusEffect velocity spin).sub velocity) velocity = 0) ∧
      (velocity.length ≤ 1 ∨ spin.length ≤ 0.1 →
        applyMagnusEffect velocity spin = velocity) := by
    intro velocity spin
    constructor
    · intro h1 h2
      have heq : applyMagnusEffect velocity spin =
          velocity.add (((Vec3.cross spin velocity).scale 0.003).scale 0.016) := by
        unfold applyMagnusEffect
        rw [if_pos ⟨h1, h2⟩]
      refine ⟨heq, ?_⟩
      rw [heq]
      simp only [Vec3.add, Vec3.sub, Vec3.scale, Vec3.cross, Vec3.dot]
      ring
    · intro h
      unfold applyMagnusEffect
      rw [if_neg]
      rintro ⟨ha, hb⟩
      rcases h with h | h
      · linarith
      · linarith
  refine ⟨hmain, ?_⟩
  have hv : (⟨2, 0, 0⟩ : Vec3).length = 2 :=
    length_eval _ 2 (by norm_num) (by norm_num)
  have hs : (⟨0, 1, 0⟩ : Vec3).length = 1 :=
    length_eval _ 1 (by norm_num) (by norm_num)
  have heq := ((hmain ⟨2, 0, 0⟩ ⟨0, 1, 0⟩).1 (by rw [hv]; norm_num)
    (by rw [hs]; norm_num)).1
  rw [heq]
  intro hcontra
  have hz := congrArg Vec3.z hcontra
  simp only [Vec3.add, Vec3.scale, Vec3.cross] at hz
  norm_num at hz

/-! ## C4: the marking position points at the wrong goal -/

/-- C4: the code positions the marker 2.5 units from the opponent toward
the goal at `teamSide * 50`, which under the side conventions of
`evaluateShot` (team 1 shoots at x = -52, fourth conjunct) and of the
formation anchors (a team-1 defender is anchored deep at x = +37.5, fifth
conjunct) is the goal the team ATTACKS; the point the spec words demand
(toward the own goal) is the mirrored one, so the two differ. -/
theorem getMarkingPosition_uses_attacked_goal :
    getMarkingPosition mC4 oC4 ballNearC4 = ⟨-(5/2), 0, 0⟩ ∧
    getMarkingPositionSpec mC4 oC4 ballNearC4 = ⟨5/2, 0, 0⟩ ∧
    getMarkingPosition mC4 oC4 ballNearC4 ≠ getMarkingPositionSpec mC4 oC4 ballNearC4 ∧
    (evaluateShot mC4 ballNearC4).target = some ⟨-52, 0, 0⟩ ∧
    getFormationPosition ⟨FormationType.two_two⟩ mC4 ⟨0, 0, 0⟩ false false =
      ⟨75/2, 0, 0⟩ := by
  have hlen : (Vec3.mk (-50) 0 0).length = 50 :=
    length_eval _ 50 (by norm_num) (by norm_num)
  have hlen2 : (Vec3.mk 50 0 0).length = 50 :=
    length_eval _ 50 (by norm_num) (by norm_num)
  have hcode : getMarkingPosition mC4 oC4 ballNearC4 = ⟨-(5/2), 0, 0⟩ := by
    simp only [getMarkingPosition, mC4, oC4, Player.getPosition]
    norm_num
    rw [normalize_eval _ 50 hlen (by norm_num)]
    simp only [Vec3.scale, Vec3.add]
    norm_num
  have hspec : getMarkingPositionSpec mC4 oC4 ballNearC4 = ⟨5/2, 0, 0⟩ := by
    simp only [getMarkingPositionSpec, mC4, oC4, Player.getPosition]
    norm_num
    rw [normalize_eval _ 50 hlen2 (by norm_num)]
    simp only [Vec3.scale, Vec3.add]
    norm_num
  have hshot : (evaluateShot mC4 ballNearC4).target = some ⟨-52, 0, 0⟩ := by
    have hd : Real.sqrt (144 : ℝ) = 12 :=
      real_sqrt_eval _ 12 (by norm_num) (by norm_num)
    have hangle : atan2nn 0 12 = 0 := by
      norm_num [atan2nn, Real.arctan_zero]
    simp only [evaluateShot, mC4, ballNearC4]
    norm_num
    rw [hd, hangle]
    rw [if_pos ⟨by norm_num, by rw [abs_zero]; positivity⟩]
  have hform : getFormationPosition ⟨FormationType.two_two⟩ mC4 ⟨0, 0, 0⟩ false false =
      ⟨75/2, 0, 0⟩ := by
    simp only [getFormationPosition, mC4, initializeFormations, fieldLength, fieldWidth,
      calculateBallOffsetX, calculateBallOffsetZ, getPlayerRole, Player.getPosition]
    norm_num
    rw [if_neg (show ¬ (FormationShape.balanced = FormationShape.offensive) by simp)]
    norm_num
  refine ⟨hcode, hspec, ?_, hshot, hform⟩
  rw [hcode, hspec]
  intro hcontra
  have := congrArg Vec3.x hcontra
  norm_num at this

/-! ## C3: the press guard does not select the closest teammate -/

/-- C3 exhibit: `pC3` is 10 units from the ball while its teammate `tC3`
is only 1 unit away, yet both players receive the press candidate (with
priority 7 * 2 = 14, the ball being in their own half), because the guard
compares the distance of the player to the ball against the distance of
the player TO THE TEAMMATE (11 units) instead of the distance of the
teammate to the ball. -/
theorem getDefendingDecisions_press_without_being_closest :
    (⟨AIAction.press, 14, some ballC3, none⟩ : AIDecision) ∈
      getDefendingDecisions pC3 PlayerRole.midfielder ballC3 [tC3] [oC3] ∧
    (⟨AIAction.press, 14, some ballC3, none⟩ : AIDecision) ∈
      getDefendingDecisions tC3 PlayerRole.midfielder ballC3 [pC3] [oC3] ∧
    tC3.pos.distanceTo ballC3 < pC3.pos.distanceTo ballC3 := by
  have d1 : Vec3.distanceTo ⟨0, 0, 0⟩ ⟨10, 0, 0⟩ = 10 :=
    distanceTo_eval _ _ 10 (by norm_num) (by norm_num)
  have d2 : Vec3.distanceTo ⟨0, 0, 0⟩ ⟨11, 0, 0⟩ = 11 :=
    distanceTo_eval _ _ 11 (by norm_num) (by norm_num)
  have d3 : Vec3.distanceTo ⟨11, 0, 0⟩ ⟨10, 0, 0⟩ = 1 :=
    distanceTo_eval _ _ 1 (by norm_num) (by norm_num)
  have d4 : Vec3.distanceTo ⟨11, 0, 0⟩ ⟨0, 0, 0⟩ = 11 :=
    distanceTo_eval _ _ 11 (by norm_num) (by norm_num)
  refine ⟨?_, ?_, ?_⟩
  · have hlist : getDefendingDecisions pC3 PlayerRole.midfielder ballC3 [tC3] [oC3] =
        [⟨AIAction.press, 14, some ballC3, none⟩] := by
      simp only [getDefendingDecisions, pC3, tC3, oC3, ballC3, Player.getPosition,
        findClosestPlayer, List.foldl, d1, d2]
      norm_num
    rw [hlist]
    simp
  · have hlist : getDefendingDecisions tC3 PlayerRole.midfielder ballC3 [pC3] [oC3] =
        [⟨AIAction.press, 14, some ballC3, none⟩] := by
      simp only [getDefendingDecisions, pC3, tC3, oC3, ballC3, Player.getPosition,
        findClosestPlayer, List.foldl, d3, d4]
      norm_num
    rw [hlist]
    simp
  · simp only [pC3, tC3, ballC3]
    rw [d3, d1]
    norm_num

/-! ## C7: the pass-lane blocking predicate -/

lemma ite_decide_eq_true (P Q : Prop) [Decidable P] [Decidable Q] :
    ((if P then decide Q else false) = true) ↔ (P ∧ Q) := by
  by_cases h : P
  · simp [h]
  · simp [h]

/-- C7: `isPassBlocked` holds exactly when some opponent projects
strictly inside the segment and sits within 3 units of its projected
point; an opponent on the segment midpoint 2 units off the line blocks,
one 3.01 units off the line does not. -/
theorem isPassBlocked_iff_projection_within_three :
    (∀ (fromV toV : Vec3) (opponents : List Player),
      isPassBlocked fromV toV opponents = true ↔
        ∃ o ∈ opponents,
          0 < (o.getPosition.sub fromV).dot ((toV.sub fromV).normalize) ∧
          (o.getPosition.sub fromV).dot ((toV.sub fromV).normalize) <
            fromV.distanceTo toV ∧
          o.getPosition.distanceTo
              (fromV.add (((toV.sub fromV).normalize).scale
                ((o.getPosition.sub fromV).dot ((toV.sub fromV).normalize)))) < 3) ∧
    isPassBlocked ⟨0, 0, 0⟩ ⟨10, 0, 0⟩ [⟨7, 1, 0, ⟨5, 0, 2⟩, ⟨0, 0, 0⟩, 0⟩] = true ∧
    isPassBlocked ⟨0, 0, 0⟩ ⟨10, 0, 0⟩
      [⟨8, 1, 0, ⟨5, 0, 301/100⟩, ⟨0, 0, 0⟩, 0⟩] = false := by
  have hiff : ∀ (fromV toV : Vec3) (opponents : List Player),
      isPassBlocked fromV toV opponents = true ↔
        ∃ o ∈ opponents,
          0 < (o.getPosition.sub fromV).dot ((toV.sub fromV).normalize) ∧
          (o.getPosition.sub fromV).dot ((toV.sub fromV).normalize) <
            fromV.distanceTo toV ∧
          o.getPosition.distanceTo
              (fromV.add (((toV.sub fromV).normalize).scale
                ((o.getPosition.sub fromV).dot ((toV.sub fromV).normalize)))) < 3 := by
    intro fromV toV opponents
    simp only [isPassBlocked, List.any_eq_true, ite_decide_eq_true, and_assoc]
  have hnorm : (Vec3.sub ⟨10, 0, 0⟩ ⟨0, 0, 0⟩).normalize = Vec3.mk 1 0 0 := by
    have hlen : (Vec3.sub ⟨10, 0, 0⟩ ⟨0, 0, 0⟩).length = 10 := by
      simp only [Vec3.sub]
      exact length_eval _ 10 (by norm_num) (by norm_num)
    rw [normalize_eval _ 10 hlen (by norm_num)]
    simp only [Vec3.sub, Vec3.scale]
    norm_num
  have hdist : Vec3.distanceTo ⟨0, 0, 0⟩ ⟨10, 0, 0⟩ = 10 :=
    distanceTo_eval _ _ 10 (by norm_num) (by norm_num)
  refine ⟨hiff, ?_, ?_⟩
  · rw [hiff]
    refine ⟨⟨7, 1, 0, ⟨5, 0, 2⟩, ⟨0, 0, 0⟩, 0⟩, by simp, ?_, ?_, ?_⟩
    · rw [hnorm]
      simp only [Player.getPosition, Vec3.sub, Vec3.dot]
      norm_num
    · rw [hnorm, hdist]
      simp only [Player.getPosition, Vec3.sub, Vec3.dot]
      norm_num
    · rw [hnorm]
      simp only [Player.getPosition, Vec3.sub, Vec3.dot, Vec3.scale, Vec3.add]
      norm_num
      have : Vec3.distanceTo ⟨5, 0, 2⟩ ⟨5, 0, 0⟩ = 2 :=
        distanceTo_eval _ _ 2 (by norm_num) (by norm_num)
      rw [this]
      norm_num
  · rw [Bool.eq_false_iff]
    intro hcontra
    rw [hiff] at hcontra
    obtain ⟨o, ho, _h1, _h2, h3⟩ := hcontra
    simp only [List.mem_singleton] at ho
    subst ho
    rw [hnorm] at h3
    simp only [Player.getPosition, Vec3.sub, Vec3.dot, Vec3.scale, Vec3.add] at h3
    norm_num at h3
    have heq : Vec3.distanceTo ⟨5, 0, 301/100⟩ ⟨5, 0, 0⟩ = 301/100 :=
      distanceTo_eval _ _ (301/100) (by norm_num) (by norm_num)
    rw [heq] at h3
    norm_num at h3

/-! ## C10: a far shot is refused and touches nothing -/

/-- C10: beyond 3 units from the ball, `executeShotFromPlayer` returns
false and leaves the whole ball state (velocity and spin included)
untouched, and the ball is modified only by calls returning true (a
false return always leaves the state unchanged); the closing conjunct
runs the refusal on a concrete input 5 units away. -/
theorem executeShotFromPlayer_far_is_noop :
    (∀ (player : Player) (ball : BallState) (powerPercent : ℝ)
        (joystickInput : Option (ℝ × ℝ)) (randSpread randSpin : ℝ),
      (player.getPosition.distanceTo ball.pos > 3 →
        executeShotFromPlayer player ball powerPercent joystickInput randSpread randSpin =
          (false, ball)) ∧
      ((executeShotFromPlayer player ball powerPercent joystickInput
          randSpread randSpin).1 = false →
        (executeShotFromPlayer player ball powerPercent joystickInput
          randSpread randSpin).2 = ball)) ∧
    executeShotFromPlayer ⟨9, 1, 0, ⟨0, 0, 0⟩, ⟨0, 0, 0⟩, 0⟩
        ⟨⟨5, 0, 0⟩, ⟨0, 0, 0⟩, ⟨0, 0, 0⟩, ⟨0, 0, 0⟩⟩ 50 none (1/2) (1/2) =
      (false, ⟨⟨5, 0, 0⟩, ⟨0, 0, 0⟩, ⟨0, 0, 0⟩, ⟨0, 0, 0⟩⟩) := by
  have hmain : ∀ (player : Player) (ball : BallState) (powerPercent : ℝ)
      (joystickInput : Option (ℝ × ℝ)) (randSpread randSpin : ℝ),
      (player.getPosition.distanceTo ball.pos > 3 →
        executeShotFromPlayer player ball powerPercent joystickInput randSpread randSpin =
          (false, ball)) ∧
      ((executeShotFromPlayer player ball powerPercent joystickInput
          randSpread randSpin).1 = false →
        (executeShotFromPlayer player ball powerPercent joystickInput
          randSpread randSpin).2 = ball) := by
    intro player ball powerPercent joystickInput randSpread randSpin
    constructor
    · intro h
      simp only [executeShotFromPlayer, if_pos h]
    · intro hfalse
      by_cases h : player.getPosition.distanceTo ball.pos > 3
      · simp only [executeShotFromPlayer, if_pos h]
      · exfalso
        simp only [executeShotFromPlayer, if_neg h] at hfalse
        exact absurd hfalse (by simp)
  refine ⟨hmain, ?_⟩
  have hd : (Player.mk 9 1 0 ⟨0, 0, 0⟩ ⟨0, 0, 0⟩ 0).getPosition.distanceTo
      (⟨5, 0, 0⟩ : Vec3) = 5 := by
    simp only [Player.getPosition]
    exact distanceTo_eval _ _ 5 (by norm_num) (by norm_num)
  exact (hmain _ _ 50 none (1/2) (1/2)).1 (by rw [hd]; norm_num)

/-! ## C2: the shoot/pass block fires only in the `attacking` state -/

lemma evaluateShot_C2_eval : evaluateShot pC2 ballC2 =
    ⟨AIAction.shoot, 10, some ⟨52, 0, 0⟩, none⟩ := by
  have hd : Real.sqrt (144 : ℝ) = 12 :=
    real_sqrt_eval _ 12 (by norm_num) (by norm_num)
  have hangle : atan2nn 0 12 = 0 := by
    norm_num [atan2nn, Real.arctan_zero]
  simp only [evaluateShot, pC2, ballC2]
  norm_num
  rw [hd, hangle]
  rw [if_pos ⟨by norm_num, by rw [abs_zero]; positivity⟩]
  norm_num

lemma makeDecisionList_C2_transitioning_eval :
    makeDecisionList pC2 PlayerRole.striker ballC2 [pC2, qC2]
        AIState.transitioning_attack =
      [⟨AIAction.intercept, 10, some ballC2, none⟩,
       ⟨AIAction.chase_ball, 6, some ballC2, none⟩,
       ⟨AIAction.pos_hold, 1, none, none⟩] := by
  have dA : Vec3.distanceTo ⟨39, 0, 0⟩ ⟨40, 0, 0⟩ = 1 :=
    distanceTo_eval _ _ 1 (by norm_num) (by norm_num)
  have dB : Vec3.distanceTo ⟨40, 0, 5⟩ ⟨40, 0, 0⟩ = 5 :=
    distanceTo_eval _ _ 5 (by norm_num) (by norm_num)
  simp only [makeDecisionList, pC2, qC2, ballC2, Player.getPosition, List.filter,
    findClosestPlayer, List.foldl, calculateInterceptPriority, getAttackingDecisions,
    dA, dB]
  norm_num [dA, dB]
  exact fun h => absurd h (by simp)

/-- C2 counterexample: with the team state `transitioning_attack`, a
player 1 unit from the ball whose shot evaluation carries priority 10
still gets no shoot and no pass candidate in the decision list — the
source gates step 2 on `state === 'attacking'` alone. -/
theorem makeDecision_transitioning_attack_omits_shoot :
    pC2.getPosition.distanceTo ballC2 < 3 ∧
    (evaluateShot pC2 ballC2).priority > 0 ∧
    ∀ d ∈ makeDecisionList pC2 PlayerRole.striker ballC2 [pC2, qC2]
        AIState.transitioning_attack,
      d.action ≠ AIAction.shoot ∧ d.action ≠ AIAction.pass := by
  refine ⟨?_, ?_, ?_⟩
  · have dA : Vec3.distanceTo ⟨39, 0, 0⟩ ⟨40, 0, 0⟩ = 1 :=
      distanceTo_eval _ _ 1 (by norm_num) (by norm_num)
    simp only [pC2, ballC2, Player.getPosition]
    rw [dA]
    norm_num
  · rw [evaluateShot_C2_eval]
    norm_num
  · rw [makeDecisionList_C2_transitioning_eval]
    intro d hd
    fin_cases hd <;> simp

lemma mem_ite_list {c : Prop} [Decidable c] {l1 l2 : List AIDecision} {d : AIDecision}
    (h : d ∈ if c then l1 else l2) : d ∈ l1 ∨ d ∈ l2 := by
  split at h
  · exact Or.inl h
  · exact Or.inr h

lemma getAttackingDecisions_action_cases (player : Player) (role : PlayerRole)
    (ballPos : Vec3) (tm op : List Player) :
    ∀ d ∈ getAttackingDecisions player role ballPos tm op,
      d.action = AIAction.chase_ball ∨ d.action = AIAction.support ∨
        d.action = AIAction.pos_hold := by
  intro d hdm
  simp only [getAttackingDecisions] at hdm
  repeat' split at hdm
  all_goals simp_all

lemma getDefendingDecisions_action_cases (player : Player) (role : PlayerRole)
    (ballPos : Vec3) (tm op : List Player) :
    ∀ d ∈ getDefendingDecisions player role ballPos tm op,
      d.action = AIAction.press ∨ d.action = AIAction.mark ∨
        d.action = AIAction.pos_hold := by
  intro d hdm
  simp only [getDefendingDecisions, List.mem_append] at hdm
  repeat' split at hdm
  all_goals simp_all
  all_goals (rcases hdm with hdm | hdm <;> subst hdm <;> simp)

/-- C2 amended: when the player is within 3 units of the ball AND the
team state is exactly `attacking`, the shoot candidate and the best pass
candidate are evaluated and each lands in the decision list whenever its
priority is positive; in every other state (so in `transitioning_attack`
in particular) the assembled list carries no shoot and no pass candidate
at all. -/
theorem makeDecisionList_attacking_adds_shoot_pass
    (player : Player) (role : PlayerRole) (ballPos : Vec3) (allPlayers : List Player)
    (h3 : player.getPosition.distanceTo ballPos < 3) :
    ((evaluateShot player ballPos).priority > 0 →
      evaluateShot player ballPos ∈
        makeDecisionList player role ballPos allPlayers AIState.attacking) ∧
    ((evaluatePass player ballPos
        (allPlayers.filter fun p => p.team = player.team ∧ p.pid ≠ player.pid)
        (allPlayers.filter fun p => p.team ≠ player.team)).priority > 0 →
      evaluatePass player ballPos
        (allPlayers.filter fun p => p.team = player.team ∧ p.pid ≠ player.pid)
        (allPlayers.filter fun p => p.team ≠ player.team) ∈
        makeDecisionList player role ballPos allPlayers AIState.attacking) ∧
    (∀ state : AIState, state ≠ AIState.attacking →
      ∀ d ∈ makeDecisionList player role ballPos allPlayers state,
        d.action ≠ AIAction.shoot ∧ d.action ≠ AIAction.pass) := by
  have hcond : player.getPosition.distanceTo ballPos < 3 ∧ True := ⟨h3, trivial⟩
  refine ⟨?_, ?_, ?_⟩
  · intro hp
    simp only [makeDecisionList]
    rw [if_pos hcond, if_pos hp]
    exact List.mem_append_left _ (List.mem_append_left _ (List.mem_append_right _
      (List.mem_append_left _ (List.mem_singleton_self _))))
  · intro hp
    simp only [makeDecisionList]
    rw [if_pos hcond, if_pos hp]
    exact List.mem_append_left _ (List.mem_append_left _ (List.mem_append_right _
      (List.mem_append_right _ (List.mem_singleton_self _))))
  · intro state hstate d hd
    have hneg : ¬ (player.getPosition.distanceTo ballPos < 3 ∧
        state = AIState.attacking) := fun hc => hstate hc.2
    simp only [makeDecisionList, if_neg hneg] at hd
    rcases List.mem_append.mp hd with hd1 | hd1
    · rcases List.mem_append.mp hd1 with hd2 | hd2
      · rw [List.append_nil] at hd2
        rcases mem_ite_list hd2 with hd3 | hd3
        · rcases mem_ite_list hd3 with hd4 | hd4
          · simp only [List.mem_singleton] at hd4
            subst hd4
            simp
          · simp at hd4
        · simp at hd3
      · cases state with
        | attacking => exact absurd rfl hstate
        | transitioning_attack =>
            rcases getAttackingDecisions_action_cases player role ballPos _ _ d hd2 with
              h | h | h <;> simp [h]
        | defending =>
            rcases getDefendingDecisions_action_cases player role ballPos _ _ d hd2 with
              h | h | h <;> simp [h]
        | transitioning_defense =>
            rcases getDefendingDecisions_action_cases player role ballPos _ _ d hd2 with
              h | h | h <;> simp [h]
    · simp only [List.mem_singleton] at hd1
      subst hd1
      simp

/-- Witness for C2 amended at the concrete C2 scenario with the team
state `attacking`. -/
theorem makeDecisionList_attacking_witness :
    pC2.getPosition.distanceTo ballC2 < 3 ∧
    (((evaluateShot pC2 ballC2).priority > 0 →
      evaluateShot pC2 ballC2 ∈
        makeDecisionList pC2 PlayerRole.striker ballC2 [pC2, qC2] AIState.attacking) ∧
    (((evaluatePass pC2 ballC2
        ([pC2, qC2].filter fun p => p.team = pC2.team ∧ p.pid ≠ pC2.pid)
        ([pC2, qC2].filter fun p => p.team ≠ pC2.team)).priority > 0 →
      evaluatePass pC2 ballC2
        ([pC2, qC2].filter fun p => p.team = pC2.team ∧ p.pid ≠ pC2.pid)
        ([pC2, qC2].filter fun p => p.team ≠ pC2.team) ∈
        makeDecisionList pC2 PlayerRole.striker ballC2 [pC2, qC2] AIState.attacking) ∧
    (∀ state : AIState, state ≠ AIState.attacking →
      ∀ d ∈ makeDecisionList pC2 PlayerRole.striker ballC2 [pC2, qC2] state,
        d.action ≠ AIAction.shoot ∧ d.action ≠ AIAction.pass))) :=
  ⟨by
    have dA : Vec3.distanceTo ⟨39, 0, 0⟩ ⟨40, 0, 0⟩ = 1 :=
      distanceTo_eval _ _ 1 (by norm_num) (by norm_num)
    simp only [pC2, ballC2, Player.getPosition]
    rw [dA]
    norm_num,
   makeDecisionList_attacking_adds_shoot_pass pC2 PlayerRole.striker ballC2 [pC2, qC2]
    (by
      have dA : Vec3.distanceTo ⟨39, 0, 0⟩ ⟨40, 0, 0⟩ = 1 :=
        distanceTo_eval _ _ 1 (by norm_num) (by norm_num)
      simp only [pC2, ballC2, Player.getPosition]
      rw [dA]
      norm_num)⟩

/-! ## C1: the team state machine is shared between both teams -/

lemma closestPlayersScan_team1_eval :
    closestPlayersScan ⟨0, 0, 0⟩ 1 [aC1, bC1] = (some aC1, some aC1) := by
  have dA : Vec3.distanceTo ⟨1, 0, 0⟩ ⟨0, 0, 0⟩ = 1 :=
    distanceTo_eval _ _ 1 (by norm_num) (by norm_num)
  have dB : Vec3.distanceTo ⟨5, 0, 0⟩ ⟨0, 0, 0⟩ = 5 :=
    distanceTo_eval _ _ 5 (by norm_num) (by norm_num)
  simp only [closestPlayersScan, List.foldl, aC1, bC1, Player.getPosition, dA, dB]
  norm_num

lemma closestPlayersScan_team2_eval :
    closestPlayersScan ⟨0, 0, 0⟩ 2 [aC1, bC1] = (some aC1, some bC1) := by
  have dA : Vec3.distanceTo ⟨1, 0, 0⟩ ⟨0, 0, 0⟩ = 1 :=
    distanceTo_eval _ _ 1 (by norm_num) (by norm_num)
  have dB : Vec3.distanceTo ⟨5, 0, 0⟩ ⟨0, 0, 0⟩ = 5 :=
    distanceTo_eval _ _ 5 (by norm_num) (by norm_num)
  simp only [closestPlayersScan, List.foldl, aC1, bC1, Player.getPosition, dA, dB]
  norm_num

lemma c1C1_decisionTree_eval :
    c1C1.decisionTree = ⟨AIState.transitioning_attack, 2 - 1/60⟩ := by
  simp only [c1C1, updateTeamState, closestPlayersScan_team1_eval]
  simp only [aiControllerInit, determineState, updateStateTimer, aC1]
  norm_num

/-- C1 exhibit: both teams start `defending` and team 1 grabs possession.
Processing team 1 first moves the SHARED decision-tree state to
`transitioning_attack`; when team 2 (without possession: the closest
player overall is the team-1 player `aC1`) is processed next in the same
tick, `determineState` reads that leaked previous state and stores
`transitioning_defense` for team 2 — while the per-team table of the spec
(`specNextTeamState`), reading the stored team-2 state `defending`,
keeps `defending`. -/
theorem updateTeamState_shared_tree_leaks_between_teams :
    aiControllerInit.teamStates 2 = AIState.defending ∧
    (closestPlayersScan ⟨0, 0, 0⟩ 2 [aC1, bC1]).1 = some aC1 ∧
    aC1.team ≠ 2 ∧
    c2C1.teamStates 2 = AIState.transitioning_defense ∧
    specNextTeamState (aiControllerInit.teamStates 2) false = AIState.defending ∧
    c2C1.teamStates 2 ≠ specNextTeamState (aiControllerInit.teamStates 2) false := by
  have hstate2 : c2C1.teamStates 2 = AIState.transitioning_defense := by
    simp only [c2C1, updateTeamState, closestPlayersScan_team2_eval,
      c1C1_decisionTree_eval]
    simp only [determineState, aC1]
    norm_num
  refine ⟨rfl, ?_, ?_, hstate2, ?_, ?_⟩
  · rw [closestPlayersScan_team2_eval]
  · simp [aC1]
  · rfl
  · rw [hstate2]
    simp [aiControllerInit, specNextTeamState]

end Soccer
